import Mathlib

/-!
Verification development for the Engine-Health-Monitoring-System repository.

The repository ships a Next.js dashboard (src/components and src/unnamed) in
front of a Python FastAPI backend.  The backend modules (baseline_learner.py,
deviation_detector.py, risk_scorer.py, engine_health_service.py) are described
at length by the repository documentation and by spec.md but their code is not
part of the checked-in sources here; the pipeline definitions below are
therefore modelled from the spec, while the dashboard definitions are shallow
embeddings of the TypeScript components.  All machine reals are modelled as
exact rationals.
-/

namespace EngineHealth

/-- Severity statuses of the pipeline.  Per the data model, a DeviationResult
status ranges over Normal, Warning, Critical and Unknown, with severity order
Normal < Warning < Critical on the first three. -/
inductive Status where
  | Normal
  | Warning
  | Critical
  | Unknown
deriving DecidableEq, Repr

/-- Numeric rank realising the severity order Normal < Warning < Critical.
Unknown is never produced by classification; it is ranked above Critical so
that it is never masked when combined. -/
def sevRank : Status → ℕ
  | Status.Normal => 0
  | Status.Warning => 1
  | Status.Critical => 2
  | Status.Unknown => 3

/-- Modelled from the spec: the more severe of two statuses under the
severity order (the max_severity combinator of section 4.2). -/
def maxSeverity (a b : Status) : Status :=
  if sevRank b ≤ sevRank a then a else b

/-- Modelled from the spec: minimum number of samples before a learned
baseline is considered valid (MIN_SAMPLES in baseline_learner.py, absent from
the checked-in sources). -/
def MIN_SAMPLES : ℕ := 10

/-- Modelled from the spec: a learned MetricBaseline, the statistics for one
metric within one (vehicle, gear) key: count of folded samples, mean and
standard deviation. -/
structure MetricBaseline where
  count : ℕ
  mean : ℚ
  std_dev : ℚ
deriving DecidableEq, Repr

/-- Modelled from the spec: the per-metric deviation record produced by the
Deviation Detector (deviation_detector.py, absent from the checked-in
sources). -/
structure DeviationResult where
  current_value : ℚ
  expected_mean : ℚ
  expected_range_min : ℚ
  expected_range_max : ℚ
  deviation_percent : ℚ
  deviation_std : ℚ
  status : Status
deriving DecidableEq, Repr

/-- Modelled from the spec: the percentage value standing for the spec's
"maximal deviation" when the baseline mean is zero but the live value is not.
Any value above the Critical percentage threshold (40) classifies
identically, so the particular constant does not affect classification. -/
def maxDeviationPercent : ℚ := 100

/-- Modelled from the spec: deviation in standard-deviation units,
|current - mean| / std_dev.  Rational division by zero is zero, so the
function is total; the degenerate std_dev = 0 case is handled separately by
the classifier. -/
def deviationStd (cv mean sd : ℚ) : ℚ := |cv - mean| / sd

/-- Modelled from the spec: deviation as a percentage of the mean,
|current - mean| / mean * 100, guarded when mean = 0: zero if the live value
is also zero, otherwise treated as maximal deviation. -/
def deviationPercent (cv mean : ℚ) : ℚ :=
  if mean = 0 then (if cv = 0 then 0 else maxDeviationPercent)
  else |cv - mean| / mean * 100

/-- Modelled from the spec: classification of a standard-deviation distance
against the std-basis thresholds (Warning above 2.0, Critical above 3.5). -/
def classifyStd (d : ℚ) : Status :=
  if d > 7/2 then Status.Critical
  else if d > 2 then Status.Warning
  else Status.Normal

/-- Modelled from the spec: classification of a percentage deviation against
the percentage-basis thresholds (Warning above 20, Critical above 40). -/
def classifyPct (p : ℚ) : Status :=
  if p > 40 then Status.Critical
  else if p > 20 then Status.Warning
  else Status.Normal

/-- Modelled from the spec: the std basis of classification, including the
degenerate case std_dev = 0, where any nonzero deviation is Critical on the
std basis and the percentage basis is relied on otherwise. -/
def classifyStdBasis (cv mean sd : ℚ) : Status :=
  if sd = 0 then (if cv = mean then Status.Normal else Status.Critical)
  else classifyStd (deviationStd cv mean sd)

/-- Modelled from the spec: the Deviation Detector computation for one metric
value against a valid baseline, producing the full DeviationResult with the
conservative (most severe) combination of the two threshold bases. -/
def detectResult (cv : ℚ) (b : MetricBaseline) : DeviationResult :=
  { current_value := cv
    expected_mean := b.mean
    expected_range_min := b.mean - 2 * b.std_dev
    expected_range_max := b.mean + 2 * b.std_dev
    deviation_percent := deviationPercent cv b.mean
    deviation_std := deviationStd cv b.mean b.std_dev
    status := maxSeverity (classifyStdBasis cv b.mean b.std_dev)
      (classifyPct (deviationPercent cv b.mean)) }

/-- Modelled from the spec: the evaluation error taxonomy (section 7). -/
inductive EvalError where
  | BaselineUnavailable
  | InsufficientBaseline
deriving DecidableEq, Repr

/-- Modelled from the spec: the Deviation Detector entry point, which fails
with BaselineUnavailable when the baseline is invalid (count below
MIN_SAMPLES). -/
def detectMetric (cv : ℚ) (b : MetricBaseline) : Except EvalError DeviationResult :=
  if MIN_SAMPLES ≤ b.count then Except.ok (detectResult cv b)
  else Except.error EvalError.BaselineUnavailable

/-- Modelled from the spec: normalized severity of a deviation pair, the
larger of deviation_std / 2.0 and deviation_percent / 20 (the interpolation
argument suggested in section 4.3). -/
def devNorm (dstd dpct : ℚ) : ℚ := max (dstd / 2) (dpct / 20)

/-- Modelled from the spec: per-metric score curve, piecewise linear through
the documented anchors: normalized severity 0 scores 100, the Warning
boundary (1) scores 85, the Critical boundary (2) scores 60, and beyond the
Critical boundary the score keeps decreasing, floored at 0. -/
def scoreOfNorm (r : ℚ) : ℚ :=
  if r ≤ 1 then 100 - 15 * r
  else if r ≤ 2 then 85 - 25 * (r - 1)
  else max 0 (60 - 25 * (r - 2))

/-- Modelled from the spec: the per-metric risk score of a DeviationResult,
computed from its own deviation pair. -/
def metricScore (d : DeviationResult) : ℚ :=
  scoreOfNorm (devNorm d.deviation_std d.deviation_percent)

/-- Modelled from the spec: the composite weighted sum over the four
per-metric scores with fixed weights temp 0.30, rpm 0.25, oil pressure 0.25,
vibration 0.20. -/
def compositeScore (t r o v : ℚ) : ℚ :=
  3/10 * t + 1/4 * r + 1/4 * o + 1/5 * v

/-- Modelled from the spec: the engine safety score of four DeviationResults,
the weighted combination of their per-metric scores. -/
def engineScore (td rd od vd : DeviationResult) : ℚ :=
  compositeScore (metricScore td) (metricScore rd) (metricScore od) (metricScore vd)

/-- Modelled from the spec: overall status bins of the composite score:
at least 85 is Normal, at least 60 (but below 85) is Warning, below 60 is
Critical. -/
def overallStatus (s : ℚ) : Status :=
  if 85 ≤ s then Status.Normal
  else if 60 ≤ s then Status.Warning
  else Status.Critical

/-- Modelled from the spec: a live telemetry sample (section 3). -/
structure TelemetrySample where
  vehicle_id : String
  gear : ℕ
  timestamp : String
  rpm : ℚ
  engine_temp : ℚ
  oil_pressure : ℚ
  vibration : ℚ
  speed : ℚ

/-- Modelled from the spec: the four learned MetricBaselines of one
(vehicle, gear) key, plus the key itself. -/
structure BaselineSnapshot where
  vehicle_id : String
  gear : ℕ
  temp : MetricBaseline
  rpm : MetricBaseline
  oil_pressure : MetricBaseline
  vibration : MetricBaseline

/-- Modelled from the spec: the result of one evaluation, aggregating the
four DeviationResults, the composite safety score and the overall status.
The explanation and recommendation text fields of section 3 belong to the
Explainer and are not modelled here, as no verified property refers to
them. -/
structure EngineStatus where
  temp_deviation : DeviationResult
  rpm_deviation : DeviationResult
  oil_pressure_deviation : DeviationResult
  vibration_deviation : DeviationResult
  engine_safety_score : ℚ
  overall_status : Status
deriving DecidableEq, Repr

/-- Modelled from the spec: the single evaluation operation exposed to the
API layer.  Each metric is detected against its own baseline and a
BaselineUnavailable failure from any detector is propagated unmodified;
on success the Risk Scorer folds the four DeviationResults into the
composite score and overall status. -/
def evaluate (s : TelemetrySample) (snap : BaselineSnapshot) :
    Except EvalError EngineStatus :=
  match detectMetric s.engine_temp snap.temp, detectMetric s.rpm snap.rpm,
      detectMetric s.oil_pressure snap.oil_pressure,
      detectMetric s.vibration snap.vibration with
  | Except.ok td, Except.ok rd, Except.ok od, Except.ok vd =>
    Except.ok
      { temp_deviation := td
        rpm_deviation := rd
        oil_pressure_deviation := od
        vibration_deviation := vd
        engine_safety_score := engineScore td rd od vd
        overall_status := overallStatus (engineScore td rd od vd) }
  | Except.error e, _, _, _ => Except.error e
  | _, Except.error e, _, _ => Except.error e
  | _, _, Except.error e, _ => Except.error e
  | _, _, _, Except.error e => Except.error e

/-- Names of the four monitored metrics, in the fixed declaration order. -/
inductive Metric where
  | temp
  | rpm
  | oil_pressure
  | vibration
deriving DecidableEq, Repr

/-- Live value of one metric within a sample. -/
def metricValue : Metric → TelemetrySample → ℚ
  | Metric.temp, s => s.engine_temp
  | Metric.rpm, s => s.rpm
  | Metric.oil_pressure, s => s.oil_pressure
  | Metric.vibration, s => s.vibration

/-- Baseline of one metric within a snapshot. -/
def metricBaseline : Metric → BaselineSnapshot → MetricBaseline
  | Metric.temp, snap => snap.temp
  | Metric.rpm, snap => snap.rpm
  | Metric.oil_pressure, snap => snap.oil_pressure
  | Metric.vibration, snap => snap.vibration

/-- DeviationResult of one metric within an evaluation result. -/
def metricDeviation : Metric → EngineStatus → DeviationResult
  | Metric.temp, r => r.temp_deviation
  | Metric.rpm, r => r.rpm_deviation
  | Metric.oil_pressure, r => r.oil_pressure_deviation
  | Metric.vibration, r => r.vibration_deviation

/-- Modelled from the spec: the sufficient statistics of the Baseline
Learner's numerically stable streaming accumulation (count, mean, M2), with
std_dev = sqrt (M2 / count). -/
structure WelfordState where
  count : ℕ
  mean : ℚ
  m2 : ℚ
deriving DecidableEq, Repr

/-- Modelled from the spec: one incremental Welford-style update of the
sufficient statistics with a new sample value. -/
def welfordStep (st : WelfordState) (x : ℚ) : WelfordState :=
  let n : ℕ := st.count + 1
  let delta : ℚ := x - st.mean
  let mean : ℚ := st.mean + delta / (n : ℚ)
  let delta2 : ℚ := x - mean
  { count := n, mean := mean, m2 := st.m2 + delta * delta2 }

/-- Modelled from the spec: folding a batch of samples of one metric into the
Baseline Learner, starting from the empty statistics. -/
def learnFold (xs : List ℚ) : WelfordState :=
  xs.foldl welfordStep { count := 0, mean := 0, m2 := 0 }

/-- Sum of squares of a list of values. -/
def sqSum (xs : List ℚ) : ℚ := (xs.map fun x => x * x).sum

end EngineHealth

namespace Frontend

/-- Shallow embedding of the score colour ramp of getScoreColor in
src/components/HealthScoreCard.tsx: green from 85 up, yellow from 60 up, red
below. -/
def getScoreColor (score : ℚ) : String :=
  if 85 ≤ score then "text-green-600"
  else if 60 ≤ score then "text-yellow-600"
  else "text-red-600"

/-- Shallow embedding of the deviation progress-bar width computed by
MetricCard in src/components/MetricCard.tsx: the component clamps
the absolute deviation percentage at 100 twice, once when computing
percentage and once in the style width. -/
def barWidth (deviationPercent : ℚ) : ℚ :=
  min (min |deviationPercent| 100) 100

/-- ASCII lowercase of one character, the effect of the JavaScript
toLowerCase call of StatusBadge on the ASCII status strings it receives. -/
def toLowerChar (c : Char) : Char :=
  if c.toNat ≥ 65 ∧ c.toNat ≤ 90 then Char.ofNat (c.toNat + 32) else c

/-- ASCII lowercase of a string (String.prototype.toLowerCase restricted to
ASCII). -/
def strToLower (s : String) : String := String.mk (s.data.map toLowerChar)

/-- Shallow embedding of getStatusStyles in the StatusBadge component
(src/unnamed/part_002): a case-insensitive switch over the status string with
a grey default branch. -/
def getStatusStyles (status : String) : String :=
  if strToLower status = "normal" then "bg-green-100 text-green-800 border-green-300"
  else if strToLower status = "warning" then "bg-yellow-100 text-yellow-800 border-yellow-300"
  else if strToLower status = "critical" then "bg-red-100 text-red-800 border-red-300"
  else "bg-gray-100 text-gray-800 border-gray-300"

/-- Component state of the Dashboard component (src/unnamed/part_003) that
fetchEngineStatus touches: the engineStatus value, the loading flag and the
error message.  The payload type is abstract, as the component treats the
fetched data opaquely. -/
structure DashboardState (α : Type) where
  engineStatus : Option α
  loading : Bool
  error : Option String
deriving Repr

/-- Body of an HTTP response as fetchEngineStatus reads it: the success flag,
the optional data payload and the optional message. -/
structure ApiResponse (α : Type) where
  success : Bool
  data : Option α
  message : Option String
deriving Repr

/-- Outcome of the axios request inside fetchEngineStatus: either a response
body or a thrown error carrying an optional detail string. -/
inductive FetchOutcome (α : Type) where
  | resp (r : ApiResponse α)
  | thrown (detail : Option String)

/-- Fallback error message used by fetchEngineStatus. -/
def failedFetchMsg : String := "Failed to fetch engine status"

/-- Shallow embedding of fetchEngineStatus in the Dashboard component: it
sets loading and clears the error, stores the payload when the response is
successful and carries data, otherwise sets the error message (from the
response message or the thrown detail, with a fallback) and leaves the
stored engineStatus untouched; the finally block clears loading in every
case. -/
def fetchEngineStatusStep {α : Type} (st : DashboardState α) (o : FetchOutcome α) :
    DashboardState α :=
  match o with
  | FetchOutcome.resp r =>
    if r.success && r.data.isSome then
      { engineStatus := r.data, loading := false, error := none }
    else
      { engineStatus := st.engineStatus, loading := false,
        error := some (r.message.getD failedFetchMsg) }
  | FetchOutcome.thrown detail =>
    { engineStatus := st.engineStatus, loading := false,
      error := some (detail.getD failedFetchMsg) }

/-- Request outcomes on which fetchEngineStatus takes its error path: a
response without a usable payload, or a thrown request error. -/
def isErrorOutcome {α : Type} : FetchOutcome α → Prop
  | FetchOutcome.resp r => (r.success && r.data.isSome) = false
  | FetchOutcome.thrown _ => True

end Frontend

namespace EngineHealth

/-- C1: for every metric, the status of a live value against a valid baseline
(std_dev positive) is the more severe of the two independent classifications,
the std basis with thresholds 2.0 / 3.5 and the percentage basis with
thresholds 20 / 40, where more severe means the maximum under the severity
order Normal < Warning < Critical. -/
theorem status_is_max_of_two_threshold_bases (cv : ℚ) (b : MetricBaseline)
    (hstd : 0 < b.std_dev) :
    (detectResult cv b).status =
      maxSeverity (classifyStd (deviationStd cv b.mean b.std_dev))
        (classifyPct (deviationPercent cv b.mean)) ∧
    sevRank (detectResult cv b).status =
      max (sevRank (classifyStd (deviationStd cv b.mean b.std_dev)))
        (sevRank (classifyPct (deviationPercent cv b.mean))) := by
  have hne : b.std_dev ≠ 0 := ne_of_gt hstd
  have h1 : (detectResult cv b).status =
      maxSeverity (classifyStd (deviationStd cv b.mean b.std_dev))
        (classifyPct (deviationPercent cv b.mean)) := by
    simp [detectResult, classifyStdBasis, hne]
  refine ⟨h1, ?_⟩
  rw [h1]
  unfold maxSeverity
  split <;> omega

/-- C1 witness: the spec's example metric with mean 100, std_dev 50 and
current value 170 (std ratio 1.4, percentage 70) classifies Critical. -/
theorem status_is_max_of_two_threshold_bases_witness :
    (0 : ℚ) < 50 ∧
      (detectResult 170 { count := 10, mean := 100, std_dev := 50 }).status =
        Status.Critical := by
  refine ⟨by norm_num, ?_⟩
  rw [(status_is_max_of_two_threshold_bases 170
    { count := 10, mean := 100, std_dev := 50 } (by norm_num)).1]
  have habs : |(170 : ℚ) - 100| = 70 := by
    rw [show (170 : ℚ) - 100 = 70 by norm_num]
    exact abs_of_nonneg (by norm_num)
  have h1 : deviationStd 170 100 50 = 7/5 := by
    unfold deviationStd; rw [habs]; norm_num
  have h2 : deviationPercent 170 100 = 70 := by
    unfold deviationPercent
    rw [if_neg (by norm_num : ¬ (100 : ℚ) = 0), habs]
    norm_num
  rw [h1, h2]
  unfold classifyStd classifyPct maxSeverity sevRank
  norm_num

/-- C2: for every live value and valid baseline with positive std_dev, the
Deviation Detector computes deviation_std as the absolute distance from the
mean in standard-deviation units, deviation_percent as the absolute distance
as a percentage of the mean with the mean = 0 division guard (zero when the
live value is also zero, maximal deviation otherwise), and the expected range
as mean minus/plus two standard deviations; all computations are total. -/
theorem deviation_formulas_total (cv : ℚ) (b : MetricBaseline)
    (hstd : 0 < b.std_dev) :
    (detectResult cv b).deviation_std = |cv - b.mean| / b.std_dev ∧
    (b.mean ≠ 0 →
      (detectResult cv b).deviation_percent = |cv - b.mean| / b.mean * 100) ∧
    (b.mean = 0 → cv = 0 → (detectResult cv b).deviation_percent = 0) ∧
    (b.mean = 0 → cv ≠ 0 →
      (detectResult cv b).deviation_percent = maxDeviationPercent) ∧
    (detectResult cv b).expected_range_min = b.mean - 2 * b.std_dev ∧
    (detectResult cv b).expected_range_max = b.mean + 2 * b.std_dev := by
  refine ⟨rfl, fun hm => ?_, fun hm hc => ?_, fun hm hc => ?_, rfl, rfl⟩
  · simp [detectResult, deviationPercent, hm]
  · simp [detectResult, deviationPercent, hm, hc]
  · simp [detectResult, deviationPercent, hm, hc]

/-- C2 witness: at mean 100, std_dev 50 and current value 170 the detector
reports deviation_std 1.4, deviation_percent 70 and expected range
[0, 200]. -/
theorem deviation_formulas_total_witness :
    (0 : ℚ) < 50 ∧
      (detectResult 170 { count := 10, mean := 100, std_dev := 50 }).deviation_std = 7/5 ∧
      (detectResult 170 { count := 10, mean := 100, std_dev := 50 }).deviation_percent = 70 ∧
      (detectResult 170 { count := 10, mean := 100, std_dev := 50 }).expected_range_min = 0 ∧
      (detectResult 170 { count := 10, mean := 100, std_dev := 50 }).expected_range_max = 200 := by
  have h := deviation_formulas_total 170 { count := 10, mean := 100, std_dev := 50 }
    (by norm_num)
  have habs : |(170 : ℚ) - 100| = 70 := by
    rw [show (170 : ℚ) - 100 = 70 by norm_num]
    exact abs_of_nonneg (by norm_num)
  refine ⟨by norm_num, ?_, ?_, ?_, ?_⟩
  · rw [h.1]; simp only; rw [habs]; norm_num
  · rw [h.2.1 (by norm_num)]; simp only; rw [habs]; norm_num
  · rw [h.2.2.2.2.1]; norm_num
  · rw [h.2.2.2.2.2]; norm_num

/-- C4: for every score value, the overall status is determined solely by the
score through the fixed bins: at least 85 is Normal, between 60 and 85 is
Warning, below 60 is Critical; the same bins drive getScoreColor in
src/components/HealthScoreCard.tsx, which shows green, yellow and red exactly
on the Normal, Warning and Critical bins respectively. -/
theorem overall_status_score_bins (s : ℚ) :
    (85 ≤ s → overallStatus s = Status.Normal) ∧
    (60 ≤ s → s < 85 → overallStatus s = Status.Warning) ∧
    (s < 60 → overallStatus s = Status.Critical) ∧
    (overallStatus s = Status.Normal ↔ Frontend.getScoreColor s = "text-green-600") ∧
    (overallStatus s = Status.Warning ↔ Frontend.getScoreColor s = "text-yellow-600") ∧
    (overallStatus s = Status.Critical ↔ Frontend.getScoreColor s = "text-red-600") := by
  unfold overallStatus Frontend.getScoreColor
  split_ifs with h1 h2
  · exact ⟨fun _ => rfl, fun _ hlt => absurd h1 (not_le.mpr hlt),
      fun hlt => absurd h1 (not_le.mpr (by linarith)), by decide, by decide, by decide⟩
  · exact ⟨fun hge => absurd hge h1, fun _ _ => rfl,
      fun hlt => absurd h2 (not_le.mpr hlt), by decide, by decide, by decide⟩
  · exact ⟨fun hge => absurd hge h1, fun hge _ => absurd hge h2,
      fun _ => rfl, by decide, by decide, by decide⟩

/-- C4 witness: at the concrete scores 85, 60 and 59 the bins yield Normal,
Warning and Critical. -/
theorem overall_status_score_bins_witness :
    overallStatus 85 = Status.Normal ∧
    overallStatus 60 = Status.Warning ∧
    overallStatus 59 = Status.Critical :=
  ⟨(overall_status_score_bins 85).1 (by norm_num),
   (overall_status_score_bins 60).2.1 (by norm_num) (by norm_num),
   (overall_status_score_bins 59).2.2.1 (by norm_num)⟩

end EngineHealth

namespace Frontend

/-- C8: for every deviation percentage, the MetricCard progress-bar width is
the absolute percentage clamped at 100, so it always lies between 0 and 100,
also for negative percentages and percentages above 100. -/
theorem metric_card_bar_width_clamped (d : ℚ) :
    barWidth d = min |d| 100 ∧ 0 ≤ barWidth d ∧ barWidth d ≤ 100 := by
  unfold barWidth
  refine ⟨by rw [min_assoc, min_self], ?_, min_le_right _ _⟩
  exact le_min (le_min (abs_nonneg d) (by norm_num)) (by norm_num)

/-- C9: the StatusBadge style lookup is total: it maps the strings normal,
warning and critical case-insensitively to the green, yellow and red styles,
and every other input falls through to the grey default style. -/
theorem status_badge_lookup_total (s : String) :
    (strToLower s = "normal" →
      getStatusStyles s = "bg-green-100 text-green-800 border-green-300") ∧
    (strToLower s = "warning" →
      getStatusStyles s = "bg-yellow-100 text-yellow-800 border-yellow-300") ∧
    (strToLower s = "critical" →
      getStatusStyles s = "bg-red-100 text-red-800 border-red-300") ∧
    (strToLower s ≠ "normal" → strToLower s ≠ "warning" → strToLower s ≠ "critical" →
      getStatusStyles s = "bg-gray-100 text-gray-800 border-gray-300") := by
  unfold getStatusStyles
  refine ⟨fun h => ?_, fun h => ?_, fun h => ?_, fun h1 h2 h3 => ?_⟩
  · rw [h]; decide
  · rw [h]; decide
  · rw [h]; decide
  · rw [if_neg h1, if_neg h2, if_neg h3]

/-- C9 witness: the spec's Unknown status falls through to the grey default,
and the uppercase string NORMAL matches the green style case-insensitively. -/
theorem status_badge_lookup_total_witness :
    getStatusStyles "Unknown" = "bg-gray-100 text-gray-800 border-gray-300" ∧
    getStatusStyles "NORMAL" = "bg-green-100 text-green-800 border-green-300" :=
  ⟨(status_badge_lookup_total "Unknown").2.2.2 (by decide) (by decide) (by decide),
   (status_badge_lookup_total "NORMAL").1 (by decide)⟩

/-- C10: whenever fetchEngineStatus takes its error path (unsuccessful or
dataless response, or a thrown request), the stored engineStatus is left
unchanged, the loading flag ends false and an error message is set. -/
theorem fetch_error_preserves_engine_status {α : Type}
    (st : DashboardState α) (o : FetchOutcome α) (h : isErrorOutcome o) :
    (fetchEngineStatusStep st o).engineStatus = st.engineStatus ∧
    (fetchEngineStatusStep st o).loading = false ∧
    (fetchEngineStatusStep st o).error.isSome = true := by
  cases o with
  | resp r =>
    have hb : (r.success && r.data.isSome) = false := h
    simp [fetchEngineStatusStep, hb]
  | thrown d => simp [fetchEngineStatusStep]

/-- C10 witness: a concrete failed response leaves a previously stored
engineStatus value in place. -/
theorem fetch_error_preserves_engine_status_witness :
    isErrorOutcome
      (FetchOutcome.resp (α := ℕ) { success := false, data := none, message := some "down" }) ∧
    (fetchEngineStatusStep { engineStatus := some 5, loading := true, error := none }
      (FetchOutcome.resp (α := ℕ)
        { success := false, data := none, message := some "down" })).engineStatus = some 5 :=
  ⟨rfl,
   (fetch_error_preserves_engine_status
     { engineStatus := some 5, loading := true, error := none }
     (FetchOutcome.resp { success := false, data := none, message := some "down" })
     rfl).1⟩

end Frontend

namespace EngineHealth

/-- DeviationResult of a reading sitting exactly on its baseline mean, used
as a concrete perfectly-average input. -/
def perfectDeviation : DeviationResult :=
  { current_value := 100
    expected_mean := 100
    expected_range_min := 80
    expected_range_max := 120
    deviation_percent := 0
    deviation_std := 0
    status := Status.Normal }

/-- C3: the composite engine safety score is the weighted sum of the four
per-metric scores with the fixed weights temp 0.30, rpm 0.25, oil pressure
0.25 and vibration 0.20, which sum to 1; per-metric scores of nonnegative
deviation pairs lie in [0, 100], the weighted sum of scores in [0, 100] lies
in [0, 100], and a perfectly-average reading (severity 0 on all four
metrics) scores exactly 100. -/
theorem engine_score_weighted_and_bounded :
    ((3 : ℚ)/10 + 1/4 + 1/4 + 1/5 = 1) ∧
    (∀ td rd od vd : DeviationResult,
      engineScore td rd od vd =
        3/10 * metricScore td + 1/4 * metricScore rd +
          1/4 * metricScore od + 1/5 * metricScore vd) ∧
    (∀ dstd dpct : ℚ, 0 ≤ dstd → 0 ≤ dpct →
      0 ≤ scoreOfNorm (devNorm dstd dpct) ∧ scoreOfNorm (devNorm dstd dpct) ≤ 100) ∧
    (∀ t r o v : ℚ, 0 ≤ t → t ≤ 100 → 0 ≤ r → r ≤ 100 → 0 ≤ o → o ≤ 100 →
      0 ≤ v → v ≤ 100 →
      0 ≤ compositeScore t r o v ∧ compositeScore t r o v ≤ 100) ∧
    (∀ td rd od vd : DeviationResult,
      td.deviation_std = 0 → td.deviation_percent = 0 →
      rd.deviation_std = 0 → rd.deviation_percent = 0 →
      od.deviation_std = 0 → od.deviation_percent = 0 →
      vd.deviation_std = 0 → vd.deviation_percent = 0 →
      engineScore td rd od vd = 100) := by
  have hms : ∀ d : DeviationResult, d.deviation_std = 0 → d.deviation_percent = 0 →
      metricScore d = 100 := by
    intro d hs hp
    unfold metricScore devNorm
    rw [hs, hp]
    norm_num [scoreOfNorm]
  refine ⟨by norm_num, fun td rd od vd => rfl, ?_, ?_, ?_⟩
  · intro dstd dpct h1 h2
    have hr0 : 0 ≤ devNorm dstd dpct :=
      le_trans (by linarith) (le_max_left (dstd / 2) (dpct / 20))
    unfold scoreOfNorm
    split_ifs with ha hb
    · constructor <;> linarith
    · push_neg at ha
      constructor <;> linarith
    · push_neg at ha hb
      exact ⟨le_max_left _ _, max_le (by norm_num) (by linarith)⟩
  · intro t r o v ht0 ht1 hr0 hr1 ho0 ho1 hv0 hv1
    unfold compositeScore
    constructor <;> linarith
  · intro td rd od vd ht1 ht2 hr1 hr2 ho1 ho2 hv1 hv2
    unfold engineScore
    rw [hms td ht1 ht2, hms rd hr1 hr2, hms od ho1 ho2, hms vd hv1 hv2]
    norm_num [compositeScore]

/-- C3 witness: the per-metric score of the deviation pair (0, 70) lies in
[0, 100], the weighted sum of the concrete scores 100, 85, 60, 0 lies in
[0, 100], and four perfectly-average DeviationResults score exactly 100. -/
theorem engine_score_weighted_and_bounded_witness :
    (0 ≤ scoreOfNorm (devNorm 0 70) ∧ scoreOfNorm (devNorm 0 70) ≤ 100) ∧
    (0 ≤ compositeScore 100 85 60 0 ∧ compositeScore 100 85 60 0 ≤ 100) ∧
    engineScore perfectDeviation perfectDeviation perfectDeviation perfectDeviation = 100 :=
  ⟨engine_score_weighted_and_bounded.2.2.1 0 70 le_rfl (by norm_num),
   engine_score_weighted_and_bounded.2.2.2.1 100 85 60 0 (by norm_num) (by norm_num)
     (by norm_num) (by norm_num) (by norm_num) (by norm_num) (by norm_num) (by norm_num),
   engine_score_weighted_and_bounded.2.2.2.2 perfectDeviation perfectDeviation
     perfectDeviation perfectDeviation rfl rfl rfl rfl rfl rfl rfl rfl⟩

end EngineHealth

namespace EngineHealth

/-- Folding one more sample at the end of a batch is one incremental
update: batch and incremental learning agree by construction. -/
lemma learnFold_append_single (xs : List ℚ) (x : ℚ) :
    learnFold (xs ++ [x]) = welfordStep (learnFold xs) x := by
  unfold learnFold
  rw [List.foldl_append]
  rfl

/-- Closed form of the Welford fold: after folding a batch, count is the
batch length, mean is the batch sum over the length, and M2 is the sum of
squares minus the squared sum over the length (all zero on the empty
batch, by the rational zero-division convention). -/
lemma learnFold_closed (xs : List ℚ) :
    learnFold xs =
      { count := xs.length
        mean := xs.sum / (xs.length : ℚ)
        m2 := sqSum xs - xs.sum ^ 2 / (xs.length : ℚ) } := by
  induction xs using List.reverseRecOn with
  | nil => simp [learnFold, sqSum]
  | append_singleton ys y ih =>
    rw [learnFold_append_single, ih]
    rcases eq_or_ne ys.length 0 with h0 | hn
    · obtain rfl : ys = [] := List.length_eq_zero.mp h0
      simp [welfordStep, sqSum]
      ring
    · have hq : (ys.length : ℚ) ≠ 0 := Nat.cast_ne_zero.mpr hn
      have hq1 : ((ys.length : ℚ) + 1) ≠ 0 := by positivity
      unfold welfordStep
      simp only [List.length_append, List.sum_append, List.length_singleton,
        List.sum_singleton, sqSum, List.map_append, List.map_singleton,
        WelfordState.mk.injEq, Nat.cast_add, Nat.cast_one]
      refine ⟨trivial, ?_, ?_⟩
      · field_simp
        ring
      · field_simp
        ring

/-- C6: learning is order-independent: folding any permutation of a multiset
of samples through the Baseline Learner yields identical sufficient
statistics (count, mean, M2) exactly — hence the same mean and, since
std_dev is sqrt (M2 / count), the same std_dev.  Exact equality over the
rationals subsumes the floating-point tolerance of the claim. -/
theorem learning_order_independent (xs ys : List ℚ) (h : xs.Perm ys) :
    learnFold xs = learnFold ys := by
  have hsq : sqSum xs = sqSum ys := (h.map fun x => x * x).sum_eq
  rw [learnFold_closed, learnFold_closed, h.length_eq, h.sum_eq, hsq]

/-- C6 witness: the two-element batches 1, 2 and 2, 1 are permutations of
each other and learn the same statistics. -/
theorem learning_order_independent_witness :
    List.Perm [(1 : ℚ), 2] [2, 1] ∧ learnFold [(1 : ℚ), 2] = learnFold [2, 1] :=
  have hp : List.Perm [(1 : ℚ), 2] [2, 1] := List.Perm.swap 2 1 []
  ⟨hp, learning_order_independent _ _ hp⟩

end EngineHealth

namespace EngineHealth

/-- Dichotomy of the detector: a valid baseline yields the detection result,
an invalid one yields the BaselineUnavailable error. -/
lemma detectMetric_cases (cv : ℚ) (b : MetricBaseline) :
    (MIN_SAMPLES ≤ b.count ∧ detectMetric cv b = Except.ok (detectResult cv b)) ∨
    (b.count < MIN_SAMPLES ∧
      detectMetric cv b = Except.error EvalError.BaselineUnavailable) := by
  unfold detectMetric
  split_ifs with h
  · exact Or.inl ⟨h, rfl⟩
  · exact Or.inr ⟨not_le.mp h, rfl⟩

/-- Successful evaluation result spelled out: each metric detected against
its own baseline, plus the composite score and the overall status. -/
def evalOk (s : TelemetrySample) (snap : BaselineSnapshot) : EngineStatus :=
  { temp_deviation := detectResult s.engine_temp snap.temp
    rpm_deviation := detectResult s.rpm snap.rpm
    oil_pressure_deviation := detectResult s.oil_pressure snap.oil_pressure
    vibration_deviation := detectResult s.vibration snap.vibration
    engine_safety_score :=
      engineScore (detectResult s.engine_temp snap.temp) (detectResult s.rpm snap.rpm)
        (detectResult s.oil_pressure snap.oil_pressure)
        (detectResult s.vibration snap.vibration)
    overall_status := overallStatus
      (engineScore (detectResult s.engine_temp snap.temp) (detectResult s.rpm snap.rpm)
        (detectResult s.oil_pressure snap.oil_pressure)
        (detectResult s.vibration snap.vibration)) }

/-- Evaluation against a snapshot whose four baselines are all valid
succeeds with the spelled-out result. -/
lemma evaluate_eq_ok_of_valid (s : TelemetrySample) (snap : BaselineSnapshot)
    (h1 : MIN_SAMPLES ≤ snap.temp.count) (h2 : MIN_SAMPLES ≤ snap.rpm.count)
    (h3 : MIN_SAMPLES ≤ snap.oil_pressure.count)
    (h4 : MIN_SAMPLES ≤ snap.vibration.count) :
    evaluate s snap = Except.ok (evalOk s snap) := by
  unfold evaluate detectMetric
  rw [if_pos h1, if_pos h2, if_pos h3, if_pos h4]
  rfl

/-- Evaluation against a snapshot with any invalid metric baseline fails
with the BaselineUnavailable error. -/
lemma evaluate_error_of_invalid (s : TelemetrySample) (snap : BaselineSnapshot)
    (hd : snap.temp.count < MIN_SAMPLES ∨ snap.rpm.count < MIN_SAMPLES ∨
      snap.oil_pressure.count < MIN_SAMPLES ∨ snap.vibration.count < MIN_SAMPLES) :
    evaluate s snap = Except.error EvalError.BaselineUnavailable := by
  unfold evaluate
  rcases detectMetric_cases s.engine_temp snap.temp with ⟨hv1, h1⟩ | ⟨hv1, h1⟩ <;>
    rcases detectMetric_cases s.rpm snap.rpm with ⟨hv2, h2⟩ | ⟨hv2, h2⟩ <;>
    rcases detectMetric_cases s.oil_pressure snap.oil_pressure with ⟨hv3, h3⟩ | ⟨hv3, h3⟩ <;>
    rcases detectMetric_cases s.vibration snap.vibration with ⟨hv4, h4⟩ | ⟨hv4, h4⟩ <;>
    rw [h1, h2, h3, h4] <;>
    first
      | rfl
      | (rcases hd with h | h | h | h <;> omega)

/-- C5: evaluation against a snapshot with any metric baseline learned from
fewer than MIN_SAMPLES (10) samples fails with BaselineUnavailable and
returns no result of any kind, while a snapshot with all metric baselines at
MIN_SAMPLES or more always succeeds.  Since the learner sets count to the
number of folded samples (learnFold_closed), a 9-sample baseline fails and a
10-sample baseline succeeds. -/
theorem cold_start_fails_warm_succeeds (s : TelemetrySample) (snap : BaselineSnapshot) :
    ((snap.temp.count < MIN_SAMPLES ∨ snap.rpm.count < MIN_SAMPLES ∨
      snap.oil_pressure.count < MIN_SAMPLES ∨ snap.vibration.count < MIN_SAMPLES) →
      evaluate s snap = Except.error EvalError.BaselineUnavailable) ∧
    ((MIN_SAMPLES ≤ snap.temp.count ∧ MIN_SAMPLES ≤ snap.rpm.count ∧
      MIN_SAMPLES ≤ snap.oil_pressure.count ∧ MIN_SAMPLES ≤ snap.vibration.count) →
      ∃ r : EngineStatus, evaluate s snap = Except.ok r) := by
  constructor
  · exact evaluate_error_of_invalid s snap
  · intro hv
    exact ⟨evalOk s snap, evaluate_eq_ok_of_valid s snap hv.1 hv.2.1 hv.2.2.1 hv.2.2.2⟩

/-- Baseline snapshot used by the cold-start witness, with every metric
baseline carrying the same sample count. -/
def coldSnap (n : ℕ) : BaselineSnapshot :=
  { vehicle_id := "VH_01"
    gear := 1
    temp := { count := n, mean := 85, std_dev := 5 }
    rpm := { count := n, mean := 1500, std_dev := 200 }
    oil_pressure := { count := n, mean := 45, std_dev := 4 }
    vibration := { count := n, mean := 3, std_dev := 1/2 } }

/-- Telemetry sample used by the cold-start witness. -/
def coldSample : TelemetrySample :=
  { vehicle_id := "VH_01"
    gear := 1
    timestamp := "2024-01-31T11:04:41"
    rpm := 1474
    engine_temp := 76
    oil_pressure := 42
    vibration := 3
    speed := 23 }

/-- C5 witness: with nine-sample baselines the evaluation fails with
BaselineUnavailable, with ten-sample baselines it succeeds. -/
theorem cold_start_fails_warm_succeeds_witness :
    ((9 : ℕ) < MIN_SAMPLES ∧
      evaluate coldSample (coldSnap 9) = Except.error EvalError.BaselineUnavailable) ∧
    (MIN_SAMPLES ≤ (10 : ℕ) ∧
      ∃ r : EngineStatus, evaluate coldSample (coldSnap 10) = Except.ok r) :=
  ⟨⟨by norm_num [MIN_SAMPLES],
    (cold_start_fails_warm_succeeds coldSample (coldSnap 9)).1
      (Or.inl (by norm_num [coldSnap, MIN_SAMPLES]))⟩,
   ⟨by norm_num [MIN_SAMPLES],
    (cold_start_fails_warm_succeeds coldSample (coldSnap 10)).2
      ⟨by norm_num [coldSnap, MIN_SAMPLES], by norm_num [coldSnap, MIN_SAMPLES],
       by norm_num [coldSnap, MIN_SAMPLES], by norm_num [coldSnap, MIN_SAMPLES]⟩⟩⟩

/-- Inversion of a successful evaluation: each metric's DeviationResult in
the output is the detection of that metric's own live value against that
metric's own baseline. -/
lemma evaluate_ok_deviation (m : Metric) (s : TelemetrySample)
    (snap : BaselineSnapshot) (r : EngineStatus)
    (h : evaluate s snap = Except.ok r) :
    metricDeviation m r = detectResult (metricValue m s) (metricBaseline m snap) := by
  by_cases hc1 : MIN_SAMPLES ≤ snap.temp.count
  on_goal 2 =>
    rw [evaluate_error_of_invalid s snap (Or.inl (not_le.mp hc1))] at h
    exact absurd h (by simp)
  by_cases hc2 : MIN_SAMPLES ≤ snap.rpm.count
  on_goal 2 =>
    rw [evaluate_error_of_invalid s snap (Or.inr (Or.inl (not_le.mp hc2)))] at h
    exact absurd h (by simp)
  by_cases hc3 : MIN_SAMPLES ≤ snap.oil_pressure.count
  on_goal 2 =>
    rw [evaluate_error_of_invalid s snap (Or.inr (Or.inr (Or.inl (not_le.mp hc3))))] at h
    exact absurd h (by simp)
  by_cases hc4 : MIN_SAMPLES ≤ snap.vibration.count
  on_goal 2 =>
    rw [evaluate_error_of_invalid s snap (Or.inr (Or.inr (Or.inr (not_le.mp hc4))))] at h
    exact absurd h (by simp)
  rw [evaluate_eq_ok_of_valid s snap hc1 hc2 hc3 hc4] at h
  injection h with h
  subst h
  cases m <;> rfl

/-- C7: each metric's status is a deterministic function of that metric's
own live value and baseline: two successful evaluations agreeing on one
metric's current value and baseline, however much the other three metrics
differ, produce the identical status for that metric. -/
theorem metric_status_no_cross_influence (m : Metric)
    (s1 s2 : TelemetrySample) (snap1 snap2 : BaselineSnapshot)
    (r1 r2 : EngineStatus)
    (h1 : evaluate s1 snap1 = Except.ok r1)
    (h2 : evaluate s2 snap2 = Except.ok r2)
    (hv : metricValue m s1 = metricValue m s2)
    (hb : metricBaseline m snap1 = metricBaseline m snap2) :
    (metricDeviation m r1).status = (metricDeviation m r2).status := by
  rw [evaluate_ok_deviation m s1 snap1 r1 h1, evaluate_ok_deviation m s2 snap2 r2 h2,
    hv, hb]

/-- Telemetry sample of the first cross-influence witness run. -/
def crossSample1 : TelemetrySample :=
  { vehicle_id := "VH_02"
    gear := 2
    timestamp := "t1"
    rpm := 2500
    engine_temp := 85
    oil_pressure := 45
    vibration := 3
    speed := 60 }

/-- Telemetry sample of the second cross-influence witness run, agreeing
with the first only on the rpm metric. -/
def crossSample2 : TelemetrySample :=
  { vehicle_id := "VH_02"
    gear := 2
    timestamp := "t2"
    rpm := 2500
    engine_temp := 120
    oil_pressure := 10
    vibration := 9
    speed := 61 }

/-- Baseline snapshot of the first cross-influence witness run. -/
def crossSnap1 : BaselineSnapshot :=
  { vehicle_id := "VH_02"
    gear := 2
    temp := { count := 10, mean := 85, std_dev := 5 }
    rpm := { count := 12, mean := 2500, std_dev := 150 }
    oil_pressure := { count := 10, mean := 45, std_dev := 4 }
    vibration := { count := 10, mean := 3, std_dev := 1/2 } }

/-- Baseline snapshot of the second cross-influence witness run, agreeing
with the first only on the rpm baseline. -/
def crossSnap2 : BaselineSnapshot :=
  { vehicle_id := "VH_02"
    gear := 2
    temp := { count := 20, mean := 90, std_dev := 7 }
    rpm := { count := 12, mean := 2500, std_dev := 150 }
    oil_pressure := { count := 20, mean := 50, std_dev := 6 }
    vibration := { count := 20, mean := 4, std_dev := 1 } }

/-- C7 witness: two successful concrete evaluations differing on every
metric except rpm assign rpm the same status. -/
theorem metric_status_no_cross_influence_witness :
    evaluate crossSample1 crossSnap1 = Except.ok (evalOk crossSample1 crossSnap1) ∧
    evaluate crossSample2 crossSnap2 = Except.ok (evalOk crossSample2 crossSnap2) ∧
    (metricDeviation Metric.rpm (evalOk crossSample1 crossSnap1)).status =
      (metricDeviation Metric.rpm (evalOk crossSample2 crossSnap2)).status := by
  have hA : evaluate crossSample1 crossSnap1 = Except.ok (evalOk crossSample1 crossSnap1) :=
    evaluate_eq_ok_of_valid _ _ (by norm_num [crossSnap1, MIN_SAMPLES])
      (by norm_num [crossSnap1, MIN_SAMPLES]) (by norm_num [crossSnap1, MIN_SAMPLES])
      (by norm_num [crossSnap1, MIN_SAMPLES])
  have hB : evaluate crossSample2 crossSnap2 = Except.ok (evalOk crossSample2 crossSnap2) :=
    evaluate_eq_ok_of_valid _ _ (by norm_num [crossSnap2, MIN_SAMPLES])
      (by norm_num [crossSnap2, MIN_SAMPLES]) (by norm_num [crossSnap2, MIN_SAMPLES])
      (by norm_num [crossSnap2, MIN_SAMPLES])
  exact ⟨hA, hB,
    metric_status_no_cross_influence Metric.rpm crossSample1 crossSample2
      crossSnap1 crossSnap2 _ _ hA hB rfl rfl⟩

end EngineHealth
